import Mathlib

/-!
Verification of the traffic-analytics core and blog manager of the
personal-site backend (files `traffic_tracker.py`, `models.py`, `app.py`,
`blog_manager.py`), as a shallow embedding in Lean.

Modelling conventions:
* Python strings are Lean `String`s; Python slicing/length act on code
  points, so they are modelled through `String.toList` (`s.data`).
* Timestamps (`datetime.utcnow`) are natural numbers (seconds); the SQL
  `date()` truncation becomes division by 86400.
* SQL tables are lists of rows; the surrogate `id` primary key, which no
  verified query reads (`count(id)` only counts rows), is omitted.
* Python floats are rationals (`ℚ`).
* Headers that may be absent are `Option String`; Python truthiness of
  `headers.get(...)` (absent or empty string ↦ falsy) is `pyTruthy`.
-/

namespace PersonalSite

/-- Python `s.strip()`: drop whitespace from both ends. -/
def pyStrip (s : String) : String :=
  String.mk (((s.toList.dropWhile Char.isWhitespace).reverse.dropWhile
    Char.isWhitespace).reverse)

/-- Python `s.split(',')[0]`: the segment before the first comma
(the whole string when there is no comma). -/
def firstCommaEntry (s : String) : String :=
  String.mk (s.toList.takeWhile (fun c => !(c == ',')))

/-- Python truthiness of `headers.get(name)`: `None` and `""` are falsy. -/
def pyTruthy : Option String → Bool
  | none => false
  | some s => decide (s ≠ "")

/-- `TrafficTracker.get_real_ip` (traffic_tracker.py lines 78-83):
`if headers.get('X-Forwarded-For'): return it.split(',')[0].strip()`,
`elif headers.get('X-Real-IP'): return it`, else the remote address.
Note the code tests *truthiness*, not presence, of each header. -/
def get_real_ip (xff xri : Option String) (remote_addr : String) : String :=
  if pyTruthy xff then pyStrip (firstCommaEntry (xff.getD ""))
  else if pyTruthy xri then xri.getD ""
  else remote_addr

/-- The spec's `resolveRealIp` read literally: the first comma-separated
entry of `X-Forwarded-For`, trimmed, whenever that header is *present*
(even empty); else `X-Real-IP` whenever present; else the remote address. -/
def resolveRealIp_spec (xff xri : Option String) (remote_addr : String) : String :=
  match xff with
  | some fwd => pyStrip (firstCommaEntry fwd)
  | none =>
    match xri with
    | some real => real
    | none => remote_addr

/-! ### Storage model (models.py) -/

/-- A `page_views` row (models.py lines 8-22).  `session_id` is always
written from the cookie session, which `before_request` populates, so it
is a plain `String`; `country`/`city` are never populated by the code. -/
structure PageView where
  ip_address : String
  user_agent : String
  path : String
  method : String
  referrer : String
  timestamp : Nat
  response_time : ℚ
  status_code : Nat
  country : Option String
  city : Option String
  session_id : String
  deriving DecidableEq, Repr

/-- A `unique_visitors` row (models.py lines 25-39).  `first_visit`,
`last_visit` default to the insertion time and `visit_count` to 1. -/
structure UniqueVisitor where
  ip_address : String
  user_agent_hash : String
  first_visit : Nat
  last_visit : Nat
  visit_count : Nat
  country : Option String
  city : Option String
  deriving DecidableEq, Repr

/-- The two tables of the analytics store. -/
structure Store where
  page_views : List PageView
  unique_visitors : List UniqueVisitor
  deriving DecidableEq, Repr

/-! ### Request instrumentation (traffic_tracker.py) -/

/-- The slice of the HTTP request the tracker reads: the matched endpoint
name (absent when no route matched), the two proxy headers, the
`User-Agent` and `Referer` headers already defaulted to `""` as in
`headers.get(name, '')`, the connection address, path, method, and the
session id that `before_request` guarantees. -/
structure Request where
  endpoint : Option String
  xff : Option String
  xri : Option String
  user_agent : String
  referrer : String
  remote_addr : String
  path : String
  method : String
  session_id : String
  deriving DecidableEq, Repr

/-- The finalized HTTP response the post-hook receives and must return. -/
structure Response where
  status_code : Nat
  body : String
  deriving DecidableEq, Repr

/-- Boolean test that `pat` is a prefix of `l`. -/
def charsPrefix : List Char → List Char → Bool
  | [], _ => true
  | _ :: _, [] => false
  | p :: ps, c :: cs => p == c && charsPrefix ps cs

/-- Boolean substring test over character lists. -/
def hasSubstr (pat : List Char) : List Char → Bool
  | [] => charsPrefix pat []
  | c :: cs => charsPrefix pat (c :: cs) || hasSubstr pat cs

/-- The static-route test of `after_request` (traffic_tracker.py line 28):
`request.endpoint and 'static' in request.endpoint` — a truthy endpoint
name containing the substring `static`. -/
def is_static_endpoint : Option String → Bool
  | none => false
  | some ep => hasSubstr ("static".toList) ep.toList

/-- `TrafficTracker.track_page_view` (traffic_tracker.py lines 39-54):
append one `PageView` row built from the request, the elapsed time and
the finalized response. -/
def track_page_view (req : Request) (resp : Response) (elapsed_ms : ℚ)
    (now : Nat) (pvs : List PageView) : List PageView :=
  pvs ++ [{ ip_address := get_real_ip req.xff req.xri req.remote_addr
            user_agent := req.user_agent
            path := req.path
            method := req.method
            referrer := req.referrer
            timestamp := now
            response_time := elapsed_ms
            status_code := resp.status_code
            country := none
            city := none
            session_id := req.session_id }]

/-- `TrafficTracker.update_unique_visitor` (traffic_tracker.py lines
56-76): look up the first row whose `(ip_address, user_agent_hash)` pair
matches; bump `visit_count` and refresh `last_visit` when found,
otherwise insert a fresh row with the column defaults
(`visit_count = 1`, `first_visit = last_visit = now`). -/
def update_unique_visitor (table : List UniqueVisitor)
    (ip user_agent_hash : String) (now : Nat) : List UniqueVisitor :=
  match table with
  | [] => [{ ip_address := ip, user_agent_hash := user_agent_hash,
             first_visit := now, last_visit := now, visit_count := 1,
             country := none, city := none }]
  | v :: vs =>
    if v.ip_address = ip ∧ v.user_agent_hash = user_agent_hash then
      { v with last_visit := now, visit_count := v.visit_count + 1 } :: vs
    else
      v :: update_unique_visitor vs ip user_agent_hash now

/-- `TrafficTracker.after_request` (traffic_tracker.py lines 26-37):
skip static routes; otherwise run the page-view insert then the visitor
upsert inside one `try`, swallowing any exception; always return the
response.  `insert_fails` / `upsert_fails` say whether the corresponding
storage write raises; a failed write leaves the store as it was before
that write, and a failed insert skips the upsert (same `try` block). -/
def after_request (req : Request) (resp : Response) (store : Store)
    (elapsed_ms : ℚ) (now : Nat) (user_agent_hash : String)
    (insert_fails upsert_fails : Bool) : Store × Response :=
  if is_static_endpoint req.endpoint then (store, resp)
  else if insert_fails then (store, resp)
  else
    let store1 : Store :=
      { store with
        page_views := track_page_view req resp elapsed_ms now store.page_views }
    if upsert_fails then (store1, resp)
    else
      ({ store1 with
         unique_visitors :=
           update_unique_visitor store1.unique_visitors
             (get_real_ip req.xff req.xri req.remote_addr)
             user_agent_hash now }, resp)

/-! ### Analytics aggregator (`admin_traffic`, app.py lines 218-316) -/

/-- SQL `date(timestamp)`: the calendar-day index of a timestamp. -/
def dateOf (t : Nat) : Nat := t / 86400

/-- The rows selected by
`filter(func.date(PageView.timestamp).between(start_date, end_date))`:
`BETWEEN` is inclusive at both ends. -/
def in_range_views (rows : List PageView) (start_date end_date : Nat) :
    List PageView :=
  rows.filter (fun pv =>
    decide (start_date ≤ dateOf pv.timestamp) &&
    decide (dateOf pv.timestamp ≤ end_date))

/-- `total_views` (app.py lines 229-231): count of in-range rows. -/
def total_views (rows : List PageView) (start_date end_date : Nat) : Nat :=
  (in_range_views rows start_date end_date).length

/-- `unique_visitors` (app.py lines 233-235): count of distinct
`ip_address` values among in-range rows. -/
def unique_visitors (rows : List PageView) (start_date end_date : Nat) : Nat :=
  ((in_range_views rows start_date end_date).map PageView.ip_address).dedup.length

/-- The distinct `session_id`s among in-range rows (the `GROUP BY
session_id` groups, and the operand of `count(distinct session_id)`). -/
def session_ids (rows : List PageView) (start_date end_date : Nat) :
    List String :=
  ((in_range_views rows start_date end_date).map PageView.session_id).dedup

/-- `single_page_sessions` (app.py lines 242-246): the number of
`GROUP BY session_id` groups having exactly one in-range row. -/
def single_page_sessions (rows : List PageView) (start_date end_date : Nat) :
    Nat :=
  ((session_ids rows start_date end_date).filter (fun sid =>
    (in_range_views rows start_date end_date).countP
      (fun pv => pv.session_id == sid) == 1)).length

/-- `total_sessions` (app.py lines 248-252): `count(distinct session_id)`
over in-range rows. -/
def total_sessions (rows : List PageView) (start_date end_date : Nat) : Nat :=
  (session_ids rows start_date end_date).length

/-- `bounce_rate` (app.py line 254):
`single_page_sessions / total_sessions * 100 if total_sessions > 0 else 0`. -/
def bounce_rate (rows : List PageView) (start_date end_date : Nat) : ℚ :=
  if 0 < total_sessions rows start_date end_date then
    (single_page_sessions rows start_date end_date : ℚ) /
      (total_sessions rows start_date end_date : ℚ) * 100
  else 0

/-- Python `round(x, 2)`: round to two decimal places (tie-breaking is
irrelevant to every verified property, so round-to-nearest is used). -/
def round2 (q : ℚ) : ℚ := (round (q * 100) : ℚ) / 100

/-- The displayed `stats['bounce_rate']` (app.py line 292). -/
def stats_bounce_rate (rows : List PageView) (start_date end_date : Nat) : ℚ :=
  round2 (bounce_rate rows start_date end_date)

/-- One row of the daily series. -/
structure DailyRow where
  date : Nat
  views : Nat
  uniques : Nat
  deriving DecidableEq, Repr

/-- `daily_views_raw` (app.py lines 275-281): in-range rows grouped by
`date(timestamp)`, each group reported with its row count and distinct-ip
count, ordered by date ascending. -/
def daily_views (rows : List PageView) (start_date end_date : Nat) :
    List DailyRow :=
  ((((in_range_views rows start_date end_date).map
      (fun pv => dateOf pv.timestamp)).dedup).mergeSort
        (fun a b => decide (a ≤ b))).map
    (fun d =>
      { date := d
        views := (in_range_views rows start_date end_date).countP
          (fun pv => dateOf pv.timestamp == d)
        uniques := (((in_range_views rows start_date end_date).filter
          (fun pv => dateOf pv.timestamp == d)).map
            PageView.ip_address).dedup.length })

/-! ### Real-time snapshot (`realtime_traffic`, app.py lines 319-344) -/

/-- One entry of the `recent_views` JSON array. -/
structure RTView where
  path : String
  timestamp : Nat
  ip_address : String
  country : Option String
  city : Option String
  deriving DecidableEq, Repr

/-- Python `view.ip_address[:8] + '...'` (app.py line 340). -/
def truncate_ip (ip : String) : String :=
  String.mk (ip.toList.take 8) ++ "..."

/-- The rows of the last five minutes, most recent first, capped at 50
(app.py lines 325-329). -/
def realtime_recent_views (rows : List PageView) (now : Nat) :
    List PageView :=
  (((rows.filter (fun pv => decide (now - 300 ≤ pv.timestamp))).mergeSort
    (fun a b => decide (b.timestamp ≤ a.timestamp))).take 50)

/-- The `realtime_traffic` payload: `active_users` (distinct sessions in
the five-minute window, app.py lines 331-333) and the `recent_views`
entries with truncated IPs (app.py lines 335-344). -/
def realtime_snapshot (rows : List PageView) (now : Nat) :
    Nat × List RTView :=
  (((rows.filter (fun pv => decide (now - 300 ≤ pv.timestamp))).map
      PageView.session_id).dedup.length,
   (realtime_recent_views rows now).map (fun pv =>
     { path := pv.path
       timestamp := pv.timestamp
       ip_address := truncate_ip pv.ip_address
       country := pv.country
       city := pv.city }))

/-! ### Blog manager (blog_manager.py) -/

/-- A blog post record as stored in `blog_posts.json`. -/
structure BlogPost where
  id : Nat
  title : String
  content : String
  excerpt : String
  category : String
  date : String
  created_at : String
  updated_at : Option String
  deriving DecidableEq, Repr

/-- `BlogManager.get_next_id` (blog_manager.py lines 31-34):
`max(ids, default=0) + 1`. -/
def get_next_id (posts : List BlogPost) : Nat :=
  (posts.map BlogPost.id).foldr max 0 + 1

/-- The excerpt auto-derivation shared by create and update
(blog_manager.py lines 39-40 and 67-68):
`content[:150] + "..." if len(content) > 150 else content`. -/
def auto_excerpt (content : String) : String :=
  if 150 < content.toList.length then
    String.mk (content.toList.take 150) ++ "..."
  else content

/-- Python `if not excerpt:` — replace a `None` or empty excerpt by the
auto-derived one. -/
def resolve_excerpt (excerpt : Option String) (content : String) : String :=
  match excerpt with
  | none => auto_excerpt content
  | some e => if e = "" then auto_excerpt content else e

/-- `BlogManager.create_post` (blog_manager.py lines 36-54): append a new
post with the next id and the resolved excerpt; returns the new list and
the new post.  `now_date`/`now_iso` stand for the two `datetime.now()`
renderings. -/
def create_post (posts : List BlogPost) (title content category : String)
    (excerpt : Option String) (now_date now_iso : String) :
    List BlogPost × BlogPost :=
  let new_post : BlogPost :=
    { id := get_next_id posts
      title := title
      content := content
      excerpt := resolve_excerpt excerpt content
      category := category
      date := now_date
      created_at := now_iso
      updated_at := none }
  (posts ++ [new_post], new_post)

/-- `BlogManager.update_post` (blog_manager.py lines 60-81): find the
first post with the given id; return `none` when absent, otherwise
replace its fields (excerpt resolved the same way) in place and return
the new list together with the updated post. -/
def update_post (posts : List BlogPost) (post_id : Nat)
    (title content category : String) (excerpt : Option String)
    (now_iso : String) : Option (List BlogPost × BlogPost) :=
  match posts with
  | [] => none
  | p :: ps =>
    if p.id = post_id then
      let p2 : BlogPost :=
        { p with
          title := title
          content := content
          excerpt := resolve_excerpt excerpt content
          category := category
          updated_at := some now_iso }
      some (p2 :: ps, p2)
    else
      match update_post ps post_id title content category excerpt now_iso with
      | none => none
      | some (ps2, q) => some (p :: ps2, q)

/-! ## Theorems -/

/-- C3 (counterexample): with `X-Forwarded-For` present but empty and
`X-Real-IP` set, the code falls through to `X-Real-IP`, while the claim
("the first comma-separated entry ... when that header is present")
demands the trimmed first entry of the empty header, i.e. `""`. -/
theorem get_real_ip_claim_counterexample :
    get_real_ip (some "") (some "10.0.0.5") "192.0.2.1" = "10.0.0.5" ∧
    resolveRealIp_spec (some "") (some "10.0.0.5") "192.0.2.1" = "" ∧
    get_real_ip (some "") (some "10.0.0.5") "192.0.2.1" ≠
      resolveRealIp_spec (some "") (some "10.0.0.5") "192.0.2.1" := by
  decide

/-- C3 (amended): the resolved client IP is the trimmed first
comma-separated entry of `X-Forwarded-For` when that header is present
and non-empty; otherwise the `X-Real-IP` value when present and
non-empty; otherwise the raw connection address. -/
theorem get_real_ip_amended (xff xri : Option String) (remote_addr : String) :
    (∀ fwd, xff = some fwd → fwd ≠ "" →
      get_real_ip xff xri remote_addr = pyStrip (firstCommaEntry fwd)) ∧
    ((xff = none ∨ xff = some "") → ∀ real, xri = some real → real ≠ "" →
      get_real_ip xff xri remote_addr = real) ∧
    ((xff = none ∨ xff = some "") → (xri = none ∨ xri = some "") →
      get_real_ip xff xri remote_addr = remote_addr) := by
  refine ⟨?_, ?_, ?_⟩
  · intro fwd hx hne
    subst hx
    simp [get_real_ip, pyTruthy, hne]
  · rintro (rfl | rfl) real hx hne <;> subst hx <;>
      simp [get_real_ip, pyTruthy, hne]
  · rintro (rfl | rfl) (rfl | rfl) <;> simp [get_real_ip, pyTruthy]

/-- C3 (witness): a forwarded chain with surrounding spaces resolves to
its trimmed first entry. -/
theorem get_real_ip_amended_witness :
    get_real_ip (some " 1.2.3.4 , 9.9.9.9") none "7.7.7.7" = "1.2.3.4" :=
  ((get_real_ip_amended (some " 1.2.3.4 , 9.9.9.9") none "7.7.7.7").1
    " 1.2.3.4 , 9.9.9.9" rfl (by decide)).trans (by decide)

lemma update_unique_visitor_not_found (table : List UniqueVisitor)
    (ip uah : String) (now : Nat)
    (h : ∀ v ∈ table, ¬(v.ip_address = ip ∧ v.user_agent_hash = uah)) :
    update_unique_visitor table ip uah now =
      table ++ [{ ip_address := ip, user_agent_hash := uah,
                  first_visit := now, last_visit := now, visit_count := 1,
                  country := none, city := none }] := by
  induction table with
  | nil => rfl
  | cons v vs ih =>
    have hv := h v (List.mem_cons_self v vs)
    simp only [update_unique_visitor, if_neg hv, List.cons_append,
      List.cons.injEq, true_and]
    exact ih fun u hu => h u (List.mem_cons_of_mem v hu)

lemma update_unique_visitor_found (pre : List UniqueVisitor)
    (v : UniqueVisitor) (post : List UniqueVisitor)
    (ip uah : String) (now : Nat)
    (hpre : ∀ u ∈ pre, ¬(u.ip_address = ip ∧ u.user_agent_hash = uah))
    (hip : v.ip_address = ip) (huah : v.user_agent_hash = uah) :
    update_unique_visitor (pre ++ v :: post) ip uah now =
      pre ++ { v with last_visit := now,
                      visit_count := v.visit_count + 1 } :: post := by
  induction pre with
  | nil =>
    simp only [List.nil_append, update_unique_visitor]
    rw [if_pos (show v.ip_address = ip ∧ v.user_agent_hash = uah from
      ⟨hip, huah⟩)]
  | cons u us ih =>
    have hu := hpre u (List.mem_cons_self u us)
    simp only [List.cons_append, update_unique_visitor, if_neg hu,
      List.cons.injEq, true_and]
    exact ih fun w hw => hpre w (List.mem_cons_of_mem u hw)

/-- C1: the upsert of `update_unique_visitor`.  For an identity with no
matching row, the table is extended by exactly one fresh row with
`visit_count = 1` and `first_visit = last_visit = now`, all other rows
unchanged.  For an identity whose first matching row is `v`, only that
row changes — `visit_count` grows by exactly 1 and `last_visit` becomes
`now` — and the table keeps its length (no new row). -/
theorem update_unique_visitor_correct (table : List UniqueVisitor)
    (ip uah : String) (now : Nat) :
    ((∀ v ∈ table, ¬(v.ip_address = ip ∧ v.user_agent_hash = uah)) →
      update_unique_visitor table ip uah now =
        table ++ [{ ip_address := ip, user_agent_hash := uah,
                    first_visit := now, last_visit := now, visit_count := 1,
                    country := none, city := none }] ∧
      (update_unique_visitor table ip uah now).length = table.length + 1) ∧
    (∀ pre v post, table = pre ++ v :: post →
      (∀ u ∈ pre, ¬(u.ip_address = ip ∧ u.user_agent_hash = uah)) →
      v.ip_address = ip → v.user_agent_hash = uah →
      update_unique_visitor table ip uah now =
        pre ++ { v with last_visit := now,
                        visit_count := v.visit_count + 1 } :: post ∧
      (update_unique_visitor table ip uah now).length = table.length) := by
  constructor
  · intro h
    have he := update_unique_visitor_not_found table ip uah now h
    exact ⟨he, by rw [he]; simp⟩
  · intro pre v post htab hpre hip huah
    subst htab
    have he := update_unique_visitor_found pre v post ip uah now hpre hip huah
    exact ⟨he, by rw [he]; simp⟩

/-- C1 (witness): a fresh identity inserts one row with count 1 and
equal first/last visit; a second request for the same identity bumps the
count to 2 and refreshes `last_visit` without adding a row. -/
theorem update_unique_visitor_correct_witness :
    update_unique_visitor [] "1.1.1.1" "h" 7 =
      [{ ip_address := "1.1.1.1", user_agent_hash := "h",
         first_visit := 7, last_visit := 7, visit_count := 1,
         country := none, city := none }] ∧
    update_unique_visitor
      [{ ip_address := "1.1.1.1", user_agent_hash := "h",
         first_visit := 7, last_visit := 7, visit_count := 1,
         country := none, city := none }] "1.1.1.1" "h" 9 =
      [{ ip_address := "1.1.1.1", user_agent_hash := "h",
         first_visit := 7, last_visit := 9, visit_count := 2,
         country := none, city := none }] := by
  constructor
  · exact ((update_unique_visitor_correct [] "1.1.1.1" "h" 7).1 (by simp)).1
  · exact ((update_unique_visitor_correct _ "1.1.1.1" "h" 9).2
      [] _ [] rfl (by simp) rfl rfl).1

lemma after_request_snd (req : Request) (resp : Response) (store : Store)
    (elapsed_ms : ℚ) (now : Nat) (uah : String)
    (insert_fails upsert_fails : Bool) :
    (after_request req resp store elapsed_ms now uah
      insert_fails upsert_fails).2 = resp := by
  unfold after_request
  split
  · rfl
  · split
    · rfl
    · split <;> rfl

/-- C7: when the page-view insert or the visitor upsert fails, the
post-hook still returns — the error is swallowed inside the `try` — and
the response it returns is exactly the one it was given, identical to
the response returned when both writes succeed. -/
theorem after_request_error_swallowed (req : Request) (resp : Response)
    (store : Store) (elapsed_ms : ℚ) (now : Nat) (uah : String)
    (insert_fails upsert_fails : Bool)
    (_h : insert_fails = true ∨ upsert_fails = true) :
    (after_request req resp store elapsed_ms now uah
      insert_fails upsert_fails).2 = resp ∧
    (after_request req resp store elapsed_ms now uah
      insert_fails upsert_fails).2 =
      (after_request req resp store elapsed_ms now uah false false).2 :=
  ⟨after_request_snd req resp store elapsed_ms now uah insert_fails
      upsert_fails,
   (after_request_snd req resp store elapsed_ms now uah insert_fails
      upsert_fails).trans
    (after_request_snd req resp store elapsed_ms now uah false false).symm⟩

/-- A concrete dynamic-route request used by witnesses. -/
def reqBlog : Request :=
  { endpoint := some "blog", xff := none, xri := none,
    user_agent := "UA", referrer := "", remote_addr := "203.0.113.9",
    path := "/blog", method := "GET", session_id := "sess1" }

/-- A concrete response and store used by witnesses. -/
def respOk : Response := { status_code := 200, body := "ok" }

/-- An empty analytics store used by witnesses. -/
def storeEmpty : Store := { page_views := [], unique_visitors := [] }

/-- C7 (witness): a failing insert on a tracked request still yields the
original 200 response. -/
theorem after_request_error_swallowed_witness :
    (after_request reqBlog respOk storeEmpty 0 0 "uah" true false).2 =
      respOk ∧
    (after_request reqBlog respOk storeEmpty 0 0 "uah" true false).2 =
      (after_request reqBlog respOk storeEmpty 0 0 "uah" false false).2 :=
  after_request_error_swallowed reqBlog respOk storeEmpty 0 0 "uah"
    true false (Or.inl rfl)

/-- C8: on a static-asset route (endpoint name containing `static`) the
post-hook leaves both tables untouched and returns the response
unchanged: its result is literally the input pair. -/
theorem after_request_static_skip (req : Request) (resp : Response)
    (store : Store) (elapsed_ms : ℚ) (now : Nat) (uah : String)
    (insert_fails upsert_fails : Bool)
    (h : is_static_endpoint req.endpoint = true) :
    after_request req resp store elapsed_ms now uah
      insert_fails upsert_fails = (store, resp) := by
  unfold after_request
  rw [if_pos h]

/-- A concrete static-asset request used by the C8 witness. -/
def reqStatic : Request :=
  { endpoint := some "static", xff := none, xri := none,
    user_agent := "UA", referrer := "", remote_addr := "203.0.113.9",
    path := "/static/css/site.css", method := "GET",
    session_id := "sess1" }

/-- C8 (witness): a request routed to the `static` endpoint changes
nothing. -/
theorem after_request_static_skip_witness :
    after_request reqStatic respOk storeEmpty 0 0 "uah" false false =
      (storeEmpty, respOk) :=
  after_request_static_skip reqStatic respOk storeEmpty 0 0 "uah"
    false false (by decide)

/-- C4: for every date range and every set of rows, the distinct-IP
count is at most the row count. -/
theorem unique_visitors_le_total_views (rows : List PageView)
    (start_date end_date : Nat) :
    unique_visitors rows start_date end_date ≤
      total_views rows start_date end_date := by
  unfold unique_visitors total_views
  calc ((in_range_views rows start_date end_date).map
          PageView.ip_address).dedup.length
      ≤ ((in_range_views rows start_date end_date).map
          PageView.ip_address).length :=
        (List.dedup_sublist _).length_le
    _ = (in_range_views rows start_date end_date).length :=
        List.length_map _ _

/-- C5: the per-day view counts of the daily series sum to the total
view count of the same range. -/
theorem daily_views_sum_eq_total (rows : List PageView)
    (start_date end_date : Nat) :
    ((daily_views rows start_date end_date).map DailyRow.views).sum =
      total_views rows start_date end_date := by
  unfold daily_views total_views
  rw [List.map_map]
  set l := in_range_views rows start_date end_date with hl
  set ds := l.map (fun pv => dateOf pv.timestamp) with hds
  have hperm :
      ((ds.dedup.mergeSort (fun a b => decide (a ≤ b))).map
        (fun d => l.countP (fun pv => dateOf pv.timestamp == d))).Perm
      (ds.dedup.map
        (fun d => l.countP (fun pv => dateOf pv.timestamp == d))) :=
    (List.mergeSort_perm ds.dedup _).map _
  have hcomp :
      (DailyRow.views ∘ fun d =>
        { date := d
          views := l.countP (fun pv => dateOf pv.timestamp == d)
          uniques := ((l.filter (fun pv => dateOf pv.timestamp == d)).map
            PageView.ip_address).dedup.length : DailyRow }) =
      fun d => l.countP (fun pv => dateOf pv.timestamp == d) := rfl
  rw [hcomp, hperm.sum_eq]
  have hcount : (fun d => l.countP (fun pv => dateOf pv.timestamp == d)) =
      fun d => ds.count d := by
    funext d
    rw [hds, List.count_eq_countP, List.countP_map]
    rfl
  rw [hcount]
  have := List.sum_map_count_dedup_eq_length ds
  rw [this, hds, List.length_map]

lemma single_le_total_sessions (rows : List PageView)
    (start_date end_date : Nat) :
    single_page_sessions rows start_date end_date ≤
      total_sessions rows start_date end_date :=
  List.length_filter_le _ _

lemma round2_bounds (q : ℚ) (h0 : 0 ≤ q) (h100 : q ≤ 100) :
    0 ≤ round2 q ∧ round2 q ≤ 100 := by
  unfold round2
  constructor
  · apply div_nonneg _ (by norm_num)
    have hz : (0 : ℤ) ≤ round (q * 100) := by
      rw [round_eq]
      exact Int.floor_nonneg.mpr (by linarith)
    exact_mod_cast hz
  · rw [div_le_iff₀ (by norm_num)]
    have hz : round (q * 100) ≤ (10000 : ℤ) := by
      rw [round_eq]
      have hfl : ⌊q * 100 + 1 / 2⌋ ≤ ⌊(10000 : ℚ) + 1 / 2⌋ :=
        Int.floor_mono (by linarith)
      have h2 : ⌊(10000 : ℚ) + 1 / 2⌋ = 10000 := by
        rw [Int.floor_eq_iff]
        constructor <;> norm_num
      omega
    have hq : ((round (q * 100) : ℤ) : ℚ) ≤ ((10000 : ℤ) : ℚ) :=
      Int.cast_le.mpr hz
    push_cast at hq
    linarith

/-- C2: the bounce rate is `single_page_sessions / total_sessions * 100`
(distinct sessions with exactly one in-range row over all distinct
in-range sessions) whenever there is at least one in-range session, `0`
otherwise; both the raw value and its 2-decimal rounding lie in
`[0, 100]` for every set of rows and every range. -/
theorem bounce_rate_correct (rows : List PageView)
    (start_date end_date : Nat) :
    (total_sessions rows start_date end_date = 0 →
      bounce_rate rows start_date end_date = 0 ∧
      stats_bounce_rate rows start_date end_date = 0) ∧
    (0 < total_sessions rows start_date end_date →
      bounce_rate rows start_date end_date =
        (single_page_sessions rows start_date end_date : ℚ) /
          (total_sessions rows start_date end_date : ℚ) * 100) ∧
    (0 ≤ bounce_rate rows start_date end_date ∧
      bounce_rate rows start_date end_date ≤ 100) ∧
    (0 ≤ stats_bounce_rate rows start_date end_date ∧
      stats_bounce_rate rows start_date end_date ≤ 100) := by
  have hbounds : 0 ≤ bounce_rate rows start_date end_date ∧
      bounce_rate rows start_date end_date ≤ 100 := by
    unfold bounce_rate
    split
    · rename_i hpos
      constructor
      · positivity
      · rw [mul_comm]
        have hle : (single_page_sessions rows start_date end_date : ℚ) /
            (total_sessions rows start_date end_date : ℚ) ≤ 1 := by
          rw [div_le_one (by exact_mod_cast hpos)]
          exact_mod_cast single_le_total_sessions rows start_date end_date
        nlinarith [hle]
    · norm_num
  refine ⟨?_, ?_, hbounds, ?_⟩
  · intro hz
    have hb : bounce_rate rows start_date end_date = 0 := by
      unfold bounce_rate
      rw [if_neg (by omega)]
    refine ⟨hb, ?_⟩
    unfold stats_bounce_rate
    rw [hb]
    unfold round2
    norm_num
  · intro hpos
    unfold bounce_rate
    rw [if_pos hpos]
  · exact round2_bounds _ hbounds.1 hbounds.2

/-- A one-view page-view row used by analytics witnesses. -/
def pvOne : PageView :=
  { ip_address := "203.0.113.7", user_agent := "UA", path := "/blog",
    method := "GET", referrer := "", timestamp := 100,
    response_time := 0, status_code := 200, country := none,
    city := none, session_id := "s1" }

/-- C2 (witness): no in-range sessions gives bounce rate 0, and a single
one-view session gives bounce rate 100. -/
theorem bounce_rate_correct_witness :
    bounce_rate [] 0 0 = 0 ∧ bounce_rate [pvOne] 0 0 = 100 := by
  constructor
  · exact ((bounce_rate_correct [] 0 0).1 rfl).1
  · have h := (bounce_rate_correct [pvOne] 0 0).2.1 (by decide)
    have hs : single_page_sessions [pvOne] 0 0 = 1 := by decide
    have ht : total_sessions [pvOne] 0 0 = 1 := by decide
    rw [hs, ht] at h
    rw [h]
    norm_num

lemma truncate_ip_ne (ip : String)
    (hdrop : ip.toList.drop 8 ≠ "...".toList) : truncate_ip ip ≠ ip := by
  intro heq
  apply hdrop
  have h1 : (truncate_ip ip).toList = ip.toList.take 8 ++ "...".toList := rfl
  have h2 : ip.toList.take 8 ++ "...".toList = ip.toList := by
    rw [← h1, heq]
  have h3 : ip.toList.take 8 ++ ip.toList.drop 8 = ip.toList :=
    List.take_append_drop 8 ip.toList
  exact (List.append_cancel_left (h2.trans h3.symm)).symm

lemma realtime_recent_views_sorted (rows : List PageView) (now : Nat) :
    List.Pairwise (fun a b : PageView => b.timestamp ≤ a.timestamp)
      (realtime_recent_views rows now) := by
  unfold realtime_recent_views
  apply List.Pairwise.sublist (List.take_sublist _ _)
  have hs := @List.sorted_mergeSort PageView
    (fun a b : PageView => decide (b.timestamp ≤ a.timestamp))
    (fun a b c hab hbc => by
      simp only [decide_eq_true_eq] at *
      exact le_trans hbc hab)
    (fun a b => by
      simp only [Bool.or_eq_true, decide_eq_true_eq]
      exact Nat.le_total b.timestamp a.timestamp)
    (rows.filter (fun pv => decide (now - 300 ≤ pv.timestamp)))
  exact hs.imp fun h => of_decide_eq_true h

/-- C6 (amended): every call of the real-time snapshot returns at most
50 entries, ordered most-recent-first, all with timestamps within the
last 5 minutes; each entry's `ip_address` is the first 8 characters of a
matching stored row's IP followed by an ellipsis, and differs from the
stored IP whenever the stored IP's characters from position 8 on are not
themselves exactly an ellipsis (true of every well-formed IP address). -/
theorem realtime_snapshot_correct (rows : List PageView) (now : Nat) :
    (realtime_snapshot rows now).2.length ≤ 50 ∧
    List.Pairwise (fun a b : RTView => b.timestamp ≤ a.timestamp)
      (realtime_snapshot rows now).2 ∧
    (∀ v ∈ (realtime_snapshot rows now).2,
      now - 300 ≤ v.timestamp ∧
      ∃ pv ∈ rows, now - 300 ≤ pv.timestamp ∧
        v.timestamp = pv.timestamp ∧
        v.ip_address = String.mk (pv.ip_address.toList.take 8) ++ "..." ∧
        (pv.ip_address.toList.drop 8 ≠ "...".toList →
          v.ip_address ≠ pv.ip_address)) := by
  have h2 : (realtime_snapshot rows now).2 =
      (realtime_recent_views rows now).map (fun pv =>
        { path := pv.path, timestamp := pv.timestamp,
          ip_address := truncate_ip pv.ip_address,
          country := pv.country, city := pv.city : RTView }) := rfl
  refine ⟨?_, ?_, ?_⟩
  · rw [h2, List.length_map]
    exact List.length_take_le _ _
  · rw [h2, List.pairwise_map]
    exact realtime_recent_views_sorted rows now
  · intro v hv
    rw [h2] at hv
    obtain ⟨pv, hpv, rfl⟩ := List.mem_map.1 hv
    have hpvf : pv ∈ rows.filter
        (fun pv => decide (now - 300 ≤ pv.timestamp)) := by
      have h1 : pv ∈ (rows.filter
          (fun pv => decide (now - 300 ≤ pv.timestamp))).mergeSort
            (fun a b => decide (b.timestamp ≤ a.timestamp)) :=
        List.mem_of_mem_take hpv
      exact List.mem_mergeSort.1 h1
    obtain ⟨hmem, hts⟩ := List.mem_filter.1 hpvf
    have hts2 : now - 300 ≤ pv.timestamp := of_decide_eq_true hts
    exact ⟨hts2, pv, hmem, hts2, rfl, rfl,
      fun hdrop => truncate_ip_ne pv.ip_address hdrop⟩

/-- The snapshot entry produced from `pvOne`, used by the C6 witness. -/
def rtOne : RTView :=
  { path := "/blog"
    timestamp := 100
    ip_address := truncate_ip "203.0.113.7"
    country := none
    city := none }

/-- C6 (witness): the amended snapshot theorem applied to one concrete
in-window row. -/
theorem realtime_snapshot_correct_witness :
    400 - 300 ≤ (100 : Nat) ∧
    (realtime_snapshot [pvOne] 400).2.length ≤ 50 := by
  have hfilter : [pvOne].filter
      (fun pv => decide (400 - 300 ≤ pv.timestamp)) = [pvOne] := by
    decide
  have hlist : (realtime_snapshot [pvOne] 400).2 = [rtOne] := by
    show (((([pvOne].filter _).mergeSort _).take 50).map _) = _
    rw [hfilter, List.mergeSort_singleton]
    rfl
  have hmem : rtOne ∈ (realtime_snapshot [pvOne] 400).2 := by
    rw [hlist]
    exact List.mem_cons_self _ _
  exact ⟨((realtime_snapshot_correct [pvOne] 400).2.2 _ hmem).1,
    (realtime_snapshot_correct [pvOne] 400).1⟩

/-- A stored row whose `ip_address` — attacker-controlled through
`X-Forwarded-For` — is exactly its own first 8 characters followed by an
ellipsis. -/
def pvFullIp : PageView :=
  { ip_address := "abcdefgh...", user_agent := "UA", path := "/",
    method := "GET", referrer := "", timestamp := 1000,
    response_time := 0, status_code := 200, country := none,
    city := none, session_id := "s9" }

/-- C6 (counterexample): on that row the snapshot returns the stored
`ip_address` unchanged and at full length, although it has at least 8
characters — refuting the claim's "never the full-length IP". -/
theorem realtime_snapshot_counterexample :
    ((realtime_snapshot [pvFullIp] 1000).2.map RTView.ip_address) =
      [pvFullIp.ip_address] ∧
    8 ≤ pvFullIp.ip_address.toList.length := by
  have hfilter : [pvFullIp].filter
      (fun pv => decide (1000 - 300 ≤ pv.timestamp)) = [pvFullIp] := by
    decide
  have h : realtime_recent_views [pvFullIp] 1000 = [pvFullIp] := by
    unfold realtime_recent_views
    rw [hfilter, List.mergeSort_singleton]
    rfl
  have h2 : (realtime_snapshot [pvFullIp] 1000).2 =
      (realtime_recent_views [pvFullIp] 1000).map (fun pv =>
        { path := pv.path, timestamp := pv.timestamp,
          ip_address := truncate_ip pv.ip_address,
          country := pv.country, city := pv.city : RTView }) := rfl
  rw [h2, h]
  exact ⟨by decide, by decide⟩

lemma le_foldr_max (l : List Nat) (a : Nat) (ha : a ∈ l) :
    a ≤ l.foldr max 0 := by
  induction l with
  | nil => cases ha
  | cons b bs ih =>
    rcases List.mem_cons.1 ha with rfl | hmem
    · exact le_max_left _ _
    · exact le_trans (ih hmem) (le_max_right _ _)

lemma id_lt_get_next_id (posts : List BlogPost) (p : BlogPost)
    (hp : p ∈ posts) : p.id < get_next_id posts := by
  unfold get_next_id
  exact Nat.lt_succ_of_le
    (le_foldr_max _ _ (List.mem_map_of_mem BlogPost.id hp))

lemma update_post_append (posts : List BlogPost) (q : BlogPost)
    (t c cat : String) (ex : Option String) (u : String)
    (hq : ∀ p ∈ posts, p.id ≠ q.id) :
    update_post (posts ++ [q]) q.id t c cat ex u =
      some (posts ++ [{ q with
                        title := t, content := c,
                        excerpt := resolve_excerpt ex c, category := cat,
                        updated_at := some u }],
            { q with
              title := t, content := c,
              excerpt := resolve_excerpt ex c, category := cat,
              updated_at := some u }) := by
  induction posts with
  | nil =>
    simp [update_post]
  | cons p ps ih =>
    have hp : p.id ≠ q.id := hq p (List.mem_cons_self p ps)
    have ih2 := ih fun w hw => hq w (List.mem_cons_of_mem p hw)
    simp only [List.cons_append, update_post, if_neg hp, List.append_eq]
    rw [ih2]

/-- C9: a post created with content longer than 150 characters and no
excerpt stores the first 150 characters of the content followed by an
ellipsis; updating that same post with an explicit non-empty excerpt
stores that excerpt verbatim. -/
theorem blog_excerpt_scenario (posts : List BlogPost)
    (t c cat d ca t2 c2 cat2 e u : String)
    (hc : 150 < c.toList.length) (he : e ≠ "") :
    (create_post posts t c cat none d ca).2.excerpt =
      String.mk (c.toList.take 150) ++ "..." ∧
    ∃ r, update_post (create_post posts t c cat none d ca).1
        (create_post posts t c cat none d ca).2.id t2 c2 cat2 (some e) u =
      some r ∧ r.2.excerpt = e := by
  constructor
  · show resolve_excerpt none c = _
    unfold resolve_excerpt auto_excerpt
    rw [if_pos hc]
  · have hq : ∀ p ∈ posts,
        p.id ≠ (create_post posts t c cat none d ca).2.id :=
      fun p hp => Nat.ne_of_lt (id_lt_get_next_id posts p hp)
    refine ⟨_, update_post_append posts
      (create_post posts t c cat none d ca).2 t2 c2 cat2 (some e) u hq, ?_⟩
    show resolve_excerpt (some e) c2 = e
    simp only [resolve_excerpt]
    rw [if_neg he]

/-- Content of 151 identical characters, used by the C9 witness. -/
def longContent : String := String.mk (List.replicate 151 'a')

set_option maxRecDepth 8000 in
/-- C9 (witness): the scenario instantiated with a concrete 151-character
content. -/
theorem blog_excerpt_scenario_witness :
    (create_post [] "T" longContent "Cat" none "D" "CA").2.excerpt =
      String.mk (longContent.toList.take 150) ++ "..." :=
  (blog_excerpt_scenario [] "T" longContent "Cat" "D" "CA" "T2" "c2"
    "Cat2" "short" "U" (by decide) (by decide)).1

lemma resolve_excerpt_empty (c : String) :
    resolve_excerpt (some "") c = resolve_excerpt none c := by
  simp [resolve_excerpt]

lemma update_post_empty_eq_none (posts : List BlogPost) (pid : Nat)
    (t c cat u : String) :
    update_post posts pid t c cat (some "") u =
      update_post posts pid t c cat none u := by
  induction posts with
  | nil => rfl
  | cons p ps ih =>
    simp only [update_post, resolve_excerpt_empty, ih]

lemma auto_excerpt_ne_empty (c : String) (hc : c ≠ "") :
    auto_excerpt c ≠ "" := by
  unfold auto_excerpt
  split
  · intro heq
    have h2 : c.toList.take 150 ++ "...".toList = ([] : List Char) :=
      congrArg String.toList heq
    rcases List.append_eq_nil.1 h2 with ⟨-, h3⟩
    exact absurd h3 (by decide)
  · exact hc

lemma update_post_some_excerpt (posts : List BlogPost) (pid : Nat)
    (t c cat : String) (ex : Option String) (u : String)
    (r : List BlogPost × BlogPost)
    (h : update_post posts pid t c cat ex u = some r) :
    r.2.excerpt = resolve_excerpt ex c := by
  induction posts generalizing r with
  | nil => exact absurd h (by simp [update_post])
  | cons p ps ih =>
    by_cases hp : p.id = pid
    · simp only [update_post, if_pos hp, Option.some.injEq] at h
      rw [← h]
    · simp only [update_post, if_neg hp] at h
      cases hm : update_post ps pid t c cat ex u with
      | none => rw [hm] at h; exact absurd h (by simp)
      | some pr =>
        obtain ⟨ps2, q2⟩ := pr
        rw [hm] at h
        simp only [Option.some.injEq] at h
        have : r.2 = q2 := by rw [← h]
        rw [this]
        exact ih (ps2, q2) hm

/-- C10 (counterexample): a call with empty content and an
empty-string excerpt stores the empty string as the excerpt, refuting
the claim's "never the empty string itself". -/
theorem empty_excerpt_counterexample :
    (create_post [] "t" "" "cat" (some "") "d" "ca").2.excerpt = "" := rfl

/-- C10 (amended): an empty-string excerpt is treated exactly like an
absent one in both `create_post` and `update_post`: the stored excerpt
is derived from the content (first 150 characters plus ellipsis when the
content has more than 150, the full content otherwise), and is the empty
string only when the content itself is empty. -/
theorem empty_excerpt_treated_as_missing (posts : List BlogPost)
    (pid : Nat) (t c cat d ca u : String) :
    (create_post posts t c cat (some "") d ca).2.excerpt =
      (create_post posts t c cat none d ca).2.excerpt ∧
    (create_post posts t c cat (some "") d ca).2.excerpt =
      (if 150 < c.toList.length then String.mk (c.toList.take 150) ++ "..."
       else c) ∧
    (c ≠ "" → (create_post posts t c cat (some "") d ca).2.excerpt ≠ "") ∧
    update_post posts pid t c cat (some "") u =
      update_post posts pid t c cat none u ∧
    (∀ r, update_post posts pid t c cat (some "") u = some r →
      r.2.excerpt =
        (if 150 < c.toList.length then String.mk (c.toList.take 150) ++ "..."
         else c) ∧ (c ≠ "" → r.2.excerpt ≠ "")) := by
  have hcreate : (create_post posts t c cat (some "") d ca).2.excerpt =
      auto_excerpt c := by
    show resolve_excerpt (some "") c = auto_excerpt c
    rw [resolve_excerpt_empty]
    rfl
  have hauto : auto_excerpt c =
      (if 150 < c.toList.length then String.mk (c.toList.take 150) ++ "..."
       else c) := rfl
  refine ⟨hcreate, hcreate.trans hauto, ?_,
    update_post_empty_eq_none posts pid t c cat u, ?_⟩
  · intro hc
    rw [hcreate]
    exact auto_excerpt_ne_empty c hc
  · intro r hr
    have he := update_post_some_excerpt posts pid t c cat (some "") u r hr
    rw [resolve_excerpt_empty] at he
    refine ⟨he.trans hauto, fun hc => ?_⟩
    rw [he]
    exact auto_excerpt_ne_empty c hc

/-- C10 (witness): short non-empty content with an empty-string excerpt
stores the content itself, which is non-empty. -/
theorem empty_excerpt_treated_as_missing_witness :
    (create_post [] "t" "hello" "cat" (some "") "d" "ca").2.excerpt =
      "hello" ∧
    (create_post [] "t" "hello" "cat" (some "") "d" "ca").2.excerpt ≠
      "" := by
  have h := empty_excerpt_treated_as_missing [] 1 "t" "hello" "cat"
    "d" "ca" "u"
  exact ⟨h.2.1.trans (by decide), h.2.2.1 (by decide)⟩

end PersonalSite
